import Mathlib

/-!
Shallow embedding of `drivers/clocksource/timer-ingenic.c` (Ingenic JZ47xx TCU
clocksource/clockevent driver).

The driver manages up to 8 countdown channels of a shared timer/counter unit
(TCU).  Machine integers are modelled as `Nat` (with explicit `% 2 ^ 32` where
the C code truncates); the driver's mutable state (the `requested` channel
bitmap, clock handles, clock enables) is passed explicitly; memory-mapped
register writes and calls into external subsystems are additionally recorded
as event traces so that ordering properties can be stated.
-/

/-! ## Register layout constants (from the source) -/

def TCSR_RESERVED_BITS : Nat := 0x3f

def REG_TDFR0 : Nat := 0x40
def REG_TDHR0 : Nat := 0x44
def REG_TCNT0 : Nat := 0x48
def REG_TCSR0 : Nat := 0x4c

def CHANNEL_STRIDE : Nat := 0x10

def REG_TDFRc (c : Nat) : Nat := REG_TDFR0 + c * CHANNEL_STRIDE
def REG_TDHRc (c : Nat) : Nat := REG_TDHR0 + c * CHANNEL_STRIDE
def REG_TCNTc (c : Nat) : Nat := REG_TCNT0 + c * CHANNEL_STRIDE
def REG_TCSRc (c : Nat) : Nat := REG_TCSR0 + c * CHANNEL_STRIDE

/-! ## Linux error numbers used by the driver -/

def ENOMEM : Int := 12
def EBUSY : Int := 16
def EINVAL : Int := 22

/-! ## Bit operations on an `unsigned long` bitmap (64 bits) -/

/-- `set_bit idx` on an `unsigned long` bitmap. -/
def setBit (n i : Nat) : Nat := n ||| 2 ^ i

/-- `clear_bit idx` on an `unsigned long` (64-bit) bitmap. -/
def clrBit (n i : Nat) : Nat := n &&& ((2 ^ 64 - 1) ^^^ 2 ^ i)

theorem testBit_setBit_self (n i : Nat) : (setBit n i).testBit i = true := by
  simp [setBit, Nat.testBit_two_pow_self]

theorem testBit_clrBit_self (n i : Nat) (h : i < 64) :
    (clrBit n i).testBit i = false := by
  have h1 : Nat.testBit (2 ^ 64 - 1) i = true := by
    rw [Nat.testBit_two_pow_sub_one]
    simpa using h
  have h2 : Nat.testBit (2 ^ i) i = true := Nat.testBit_two_pow_self
  rw [clrBit, Nat.testBit_and, Nat.testBit_xor, h1, h2]
  simp

/-! ## Driver state

`struct ingenic_tcu` holds the `requested` bitmap.  Each channel's clock
handle (`clk_get` result, held until `clk_put`) and clock enable state
(`clk_prepare_enable` .. `clk_disable_unprepare`) are tracked as per-channel
bitmaps of the external clock subsystem's state. -/

structure DriverState where
  /-- `tcu->requested`: bitmap of claimed channel indices. -/
  requested : Nat
  /-- bitmap: channels whose clock handle is currently held (`clk_get` without
  a matching `clk_put`). -/
  clkHeld : Nat
  /-- bitmap: channels whose clock is currently prepared and enabled. -/
  clkEnabled : Nat
  deriving DecidableEq, Repr

/-- Outcomes of the external clock subsystem, per channel ordinal `i`
(the clock named `"timer<i>"`): result of `clk_get` (`0` = success,
otherwise the `PTR_ERR` code) and of `clk_prepare_enable`. -/
structure ClkEnv where
  getErr : Nat → Int
  enableErr : Nat → Int

/-- `ingenic_tcu_req_channel`: atomically test-and-set the channel's bit in
`tcu->requested` (fail with `-EBUSY` if already set), then `clk_get` the
clock `"timer<idx>"` (on failure clear the bit and return the error), then
`clk_prepare_enable` it (on failure `clk_put` the handle, clear the bit and
return the error). -/
def ingenic_tcu_req_channel (env : ClkEnv) (idx : Nat) (s : DriverState) :
    Int × DriverState :=
  if s.requested.testBit idx then
    (-EBUSY, s)
  else
    let s1 : DriverState := { s with requested := setBit s.requested idx }
    if env.getErr idx ≠ 0 then
      (env.getErr idx, { s1 with requested := clrBit s1.requested idx })
    else
      let s2 : DriverState := { s1 with clkHeld := setBit s1.clkHeld idx }
      if env.enableErr idx ≠ 0 then
        (env.enableErr idx,
         { s2 with clkHeld := clrBit s2.clkHeld idx,
                   requested := clrBit s2.requested idx })
      else
        (0, { s2 with clkEnabled := setBit s2.clkEnabled idx })

/-! ## Events recorded during per-channel setup and teardown -/

inductive SetupEvent where
  /-- `irq_dispose_mapping(virq)` -/
  | irqDisposeMapping (virq : Nat)
  /-- `kfree(jzcevt)`: free the event-binding allocation -/
  | kfreeJzcevt
  /-- `clk_disable_unprepare(channel->clk)` -/
  | clkDisableUnprepare (idx : Nat)
  /-- `clk_put(channel->clk)` -/
  | clkPut (idx : Nat)
  /-- `clear_bit(channel->idx, &channel->tcu->requested)` -/
  | clearBit (idx : Nat)
  /-- `clockevents_config_and_register(&jzcevt->cevt, rate, 10, (1 << 16) - 1)` -/
  | clockeventsRegister (rate minDelta maxDelta : Nat)
  deriving DecidableEq, Repr

/-- `ingenic_tcu_free_channel`: disable and unprepare the channel's clock,
put the clock handle, then clear the channel's claimed bit. -/
def ingenic_tcu_free_channel (idx : Nat) (s : DriverState) :
    DriverState × List SetupEvent :=
  ({ requested := clrBit s.requested idx,
     clkHeld := clrBit s.clkHeld idx,
     clkEnabled := clrBit s.clkEnabled idx },
   [SetupEvent.clkDisableUnprepare idx, SetupEvent.clkPut idx,
    SetupEvent.clearBit idx])

/-! ## Channel reset -/

/-- External inputs to `ingenic_tcu_reset_channel` for one channel: whether
`of_parse_phandle(np, "tcsr", idx)` finds a node, the result of
`syscon_node_to_regmap` on it (`0` = success, otherwise the `PTR_ERR` code),
the current 16-bit value of the TCSR register, and the result code of
`regmap_update_bits`. -/
structure ResetEnv where
  tcsrNodeFound : Bool
  tcsrRegmapErr : Int
  tcsrReg : Nat
  updateErr : Int

/-- `regmap_update_bits(map, reg, mask, val)` read-modify-write on a 32-bit
register value: `(orig & ~mask) | (val & mask)`. -/
def regmap_update_bits_val (orig mask val : Nat) : Nat :=
  (orig &&& (0xffffffff ^^^ mask)) ||| (val &&& mask)

/-- The update mask used by the reset: `0xffff & ~TCSR_RESERVED_BITS`
(C evaluates `~` on a 32-bit int). -/
def tcsrUpdateMask : Nat := 0xffff &&& (0xffffffff ^^^ TCSR_RESERVED_BITS)

/-- `ingenic_tcu_reset_channel`: resolve the per-channel `tcsr` phandle
(`-EINVAL` if absent), get its regmap (propagate `PTR_ERR` on failure), then
perform one `regmap_update_bits(tcsr, 0, 0xffff & ~TCSR_RESERVED_BITS, 0)`.
Returns the error code, the written register value (when a write happened)
and the list of `(offset, mask, value)` read-modify-write operations
performed. -/
def ingenic_tcu_reset_channel (env : ResetEnv) :
    Int × Option Nat × List (Nat × Nat × Nat) :=
  if ¬ env.tcsrNodeFound then
    (-EINVAL, none, [])
  else if env.tcsrRegmapErr ≠ 0 then
    (env.tcsrRegmapErr, none, [])
  else
    (env.updateErr, some (regmap_update_bits_val env.tcsrReg tcsrUpdateMask 0),
     [(0, tcsrUpdateMask, 0)])

/-! ## Hardware state seen by the event-binding layer

The TCU's memory-mapped window (`tcu->base`) is a map from byte offset to
32-bit value; the shared enable register (reached through the `ter` regmap)
is a per-channel bitmap. -/

structure HwState where
  /-- TCU MMIO window: byte offset from `tcu->base` to 32-bit register value. -/
  regs : Nat → Nat
  /-- shared enable register: bit `i` gates channel `i`'s counting. -/
  ter : Nat

/-- `writel(val, tcu->base + off)`: 32-bit MMIO store. -/
def writel (s : HwState) (val off : Nat) : HwState :=
  { s with regs := fun a => if a = off then val % 2 ^ 32 else s.regs a }

/-- Modelled from the spec: `tcu_timer_enable` (declared in an external
header, not under `src/`) asserts the channel's bit in the shared enable
register through the `ter` regmap accessor. -/
def tcu_timer_enable (s : HwState) (idx : Nat) : HwState :=
  { s with ter := setBit s.ter idx }

/-- Modelled from the spec: `tcu_timer_disable` (declared in an external
header, not under `src/`) clears the channel's bit in the shared enable
register through the `ter` regmap accessor. -/
def tcu_timer_disable (s : HwState) (idx : Nat) : HwState :=
  { s with ter := clrBit s.ter idx }

/-- Events of the event-binding layer (register writes and calls out of the
driver), recorded in program order. -/
inductive HwEvent where
  /-- `writel(val, tcu->base + off)` -/
  | writeReg (off val : Nat)
  /-- `tcu_timer_enable(tcu->ter, idx)` -/
  | terEnable (idx : Nat)
  /-- `tcu_timer_disable(tcu->ter, idx)` -/
  | terDisable (idx : Nat)
  /-- `cevt->event_handler(cevt)`: the framework's registered callback -/
  | callHandler
  deriving DecidableEq, Repr

/-- `ingenic_tcu_cevt_set_next` (the `arm(ticks)` operation): reject
`next > 0xffff` with `-EINVAL`; otherwise write `(unsigned int) next` to the
channel's `TDFR` reload register, write `0` to its `TCNT` counter register,
and finally `tcu_timer_enable` the channel's bit in the shared enable
register.  Returns the error code, the resulting hardware state and the
event trace. -/
def ingenic_tcu_cevt_set_next (next idx : Nat) (s : HwState) :
    Int × HwState × List HwEvent :=
  if next > 0xffff then
    (-EINVAL, s, [])
  else
    let s1 := writel s next (REG_TDFRc idx)
    let s2 := writel s1 0 (REG_TCNTc idx)
    let s3 := tcu_timer_enable s2 idx
    (0, s3,
     [HwEvent.writeReg (REG_TDFRc idx) (next % 2 ^ 32),
      HwEvent.writeReg (REG_TCNTc idx) 0,
      HwEvent.terEnable idx])

/-- `ingenic_tcu_cevt_set_state_shutdown` (the `disarm()` operation): clear
the channel's bit in the shared enable register; touch nothing else. -/
def ingenic_tcu_cevt_set_state_shutdown (idx : Nat) (s : HwState) :
    Int × HwState × List HwEvent :=
  (0, tcu_timer_disable s idx, [HwEvent.terDisable idx])

/-- `IRQ_HANDLED` return value of an interrupt handler. -/
def IRQ_HANDLED : Nat := 1

/-- `ingenic_tcu_cevt_cb`, the interrupt handler: disable the channel's bit
in the shared enable register, then, only if the framework has registered an
`event_handler` callback (non-null pointer), invoke it; return
`IRQ_HANDLED`.  `hasHandler` models whether `cevt->event_handler` is
non-null. -/
def ingenic_tcu_cevt_cb (hasHandler : Bool) (idx : Nat) (s : HwState) :
    Nat × HwState × List HwEvent :=
  let s1 := tcu_timer_disable s idx
  if hasHandler then
    (IRQ_HANDLED, s1, [HwEvent.terDisable idx, HwEvent.callHandler])
  else
    (IRQ_HANDLED, s1, [HwEvent.terDisable idx])

/-! ## Per-channel setup (`ingenic_tcu_setup_cevt`) -/

/-- External inputs to per-channel setup, per channel index: the clock
subsystem outcomes, the per-channel reset inputs, `clk_get_rate` of the
channel's clock, whether `kzalloc` of the event binding succeeds, the
`irq_of_parse_and_map` result (`0` = mapping failure) and the `request_irq`
result. -/
structure SetupEnv where
  clkEnv : ClkEnv
  resetEnv : Nat → ResetEnv
  rate : Nat → Nat
  kzallocOk : Bool
  virq : Nat → Nat
  requestIrqErr : Nat → Int

/-- `ingenic_tcu_setup_cevt`: claim the channel, reset it, read the clock
rate (zero is `-EINVAL`), allocate the event binding (`-ENOMEM` on failure),
map the interrupt (`-EINVAL` if unmappable), register the interrupt handler,
then populate the binding and register it with the clockevents framework
with bounds `[10, (1 << 16) - 1]`.  On failure each acquired resource is
released in reverse order through the labelled unwind chain of the source:
`err_out_irq_dispose_mapping` → `err_out_kfree_jzcevt` →
`err_out_free_channel`. -/
def ingenic_tcu_setup_cevt (env : SetupEnv) (idx : Nat) (s : DriverState) :
    Int × DriverState × List SetupEvent :=
  let r := ingenic_tcu_req_channel env.clkEnv idx s
  if r.1 ≠ 0 then
    (r.1, r.2, [])
  else
    let s1 := r.2
    let rst := ingenic_tcu_reset_channel (env.resetEnv idx)
    if rst.1 ≠ 0 then
      let f := ingenic_tcu_free_channel idx s1
      (rst.1, f.1, f.2)
    else if env.rate idx = 0 then
      let f := ingenic_tcu_free_channel idx s1
      (-EINVAL, f.1, f.2)
    else if ¬ env.kzallocOk then
      let f := ingenic_tcu_free_channel idx s1
      (-ENOMEM, f.1, f.2)
    else if env.virq idx = 0 then
      let f := ingenic_tcu_free_channel idx s1
      (-EINVAL, f.1, SetupEvent.kfreeJzcevt :: f.2)
    else if env.requestIrqErr idx ≠ 0 then
      let f := ingenic_tcu_free_channel idx s1
      (env.requestIrqErr idx, f.1,
       SetupEvent.irqDisposeMapping (env.virq idx) :: SetupEvent.kfreeJzcevt ::
         f.2)
    else
      (0, s1, [SetupEvent.clockeventsRegister (env.rate idx) 10 ((1 <<< 16) - 1)])

/-! ## Unit initialization (`ingenic_tcu_init`) -/

/-- External inputs to unit initialization: the element counts of the
`"timers"` and `"interrupts"` properties (negative on read failure, as
returned by `of_property_count_elems_of_size`), the outcomes of the two
`kzalloc`s and of the `ter` syscon lookup and `of_iomap` inside
`ingenic_tcu_init_tcu`, the per-entry result of
`of_property_read_u32_index(np, "timers", i, &timer)` and the value read,
and the per-channel setup inputs. -/
structure InitEnv where
  numTimersProp : Int
  numChannelsProp : Int
  tcuAllocOk : Bool
  channelsAllocOk : Bool
  terErr : Int
  iomapOk : Bool
  readTimerErr : Nat → Int
  timerVal : Nat → Nat
  setup : SetupEnv

/-- `ingenic_tcu_init_tcu`: allocate the unit and its channel array
(`-ENOMEM` on failure), look up the `ter` syscon regmap (propagate its
error), map the TCU registers (`-EINVAL` on failure).  On success the unit
starts with an all-zero `requested` bitmap (`kzalloc`). -/
def ingenic_tcu_init_tcu (env : InitEnv) : Except Int DriverState :=
  if ¬ env.tcuAllocOk then
    Except.error (-ENOMEM)
  else if ¬ env.channelsAllocOk then
    Except.error (-ENOMEM)
  else if env.terErr ≠ 0 then
    Except.error env.terErr
  else if ¬ env.iomapOk then
    Except.error (-EINVAL)
  else
    Except.ok { requested := 0, clkHeld := 0, clkEnabled := 0 }

/-- How a run of `ingenic_tcu_init` ends: a value returned to the caller, a
`BUG_ON` firing (kernel bug handler: the process aborts and nothing is
returned), or undefined behavior from an out-of-bounds access into
`tcu->channels`. -/
inductive InitOutcome where
  /-- the initializer returns this value to its caller. -/
  | ret (e : Int)
  /-- a `BUG_ON` condition held: abort, nothing is returned. -/
  | bugOn
  /-- `&tcu->channels[idx]` with `idx ≥ num_channels`: out-of-bounds access
  (undefined behavior) before any validation or claim on a real channel. -/
  | oob (idx : Nat)
  deriving DecidableEq, Repr

/-- The `for (i = 0; i < num_timers; i++)` loop body of `ingenic_tcu_init`,
iterating over the remaining entry positions: read the `i`-th element of the
`"timers"` property (`BUG_ON(err)` on failure), then run
`ingenic_tcu_setup_cevt` on that index (`BUG_ON(err)` on failure).
`ingenic_tcu_setup_cevt` starts with `&tcu->channels[timer]`, which is an
out-of-bounds access whenever `timer ≥ num_channels` — the source never
validates the index. -/
def ingenic_tcu_init_go (env : InitEnv) (nch : Nat) :
    List Nat → DriverState → InitOutcome
  | [], _ => InitOutcome.ret 0
  | i :: rest, s =>
    if env.readTimerErr i ≠ 0 then
      InitOutcome.bugOn
    else
      let timer := env.timerVal i
      if nch ≤ timer then
        InitOutcome.oob timer
      else
        let r := ingenic_tcu_setup_cevt env.setup timer s
        if r.1 ≠ 0 then
          InitOutcome.bugOn
        else
          ingenic_tcu_init_go env nch rest r.2.1

/-- `ingenic_tcu_init`: count the `"timers"` elements (return `-EINVAL` if
the property is unreadable), count the `"interrupts"` elements (return
`-EINVAL` if unreadable or more than 8), create the unit
(`BUG_ON(IS_ERR(tcu))` on failure), then set up every listed timer index. -/
def ingenic_tcu_init (env : InitEnv) : InitOutcome :=
  if env.numTimersProp < 0 then
    InitOutcome.ret (-EINVAL)
  else if env.numChannelsProp < 0 ∨ env.numChannelsProp > 8 then
    InitOutcome.ret (-EINVAL)
  else
    match ingenic_tcu_init_tcu env with
    | Except.error _ => InitOutcome.bugOn
    | Except.ok s0 =>
        ingenic_tcu_init_go env env.numChannelsProp.toNat
          (List.range env.numTimersProp.toNat) s0

/-! ## Concrete environments used to evaluate the model -/

/-- A clock subsystem in which every `clk_get` and `clk_prepare_enable`
succeeds. -/
def okClkEnv : ClkEnv := ⟨fun _ => 0, fun _ => 0⟩

/-- Reset inputs for a channel whose `tcsr` phandle and regmap resolve. -/
def okResetEnv : ResetEnv := ⟨true, 0, 0xffff, 0⟩

/-- Per-channel setup inputs with every external step succeeding. -/
def okSetupEnv : SetupEnv :=
  ⟨okClkEnv, fun _ => okResetEnv, fun _ => 12000000, true, fun i => i + 8,
   fun _ => 0⟩

/-- Unit-initialization inputs describing a unit with 2 discovered channels
and activation list `[0]`, every external step succeeding. -/
def okInitEnv : InitEnv :=
  ⟨1, 2, true, true, 0, true, fun _ => 0, fun i => i, okSetupEnv⟩

/-! ## Theorems settling the claims -/

theorem REG_TDFRc_ne_REG_TCNTc (idx : Nat) : REG_TDFRc idx ≠ REG_TCNTc idx := by
  simp only [REG_TDFRc, REG_TCNTc, REG_TDFR0, REG_TCNT0, CHANNEL_STRIDE]
  omega

/-- Claim C3: for every `ticks` in `[0, 65535]`, `arm(ticks)`
(`ingenic_tcu_cevt_set_next`) succeeds and performs exactly the sequence:
write `ticks` to the channel's reload register, write `0` to its live
counter register, and only then, as the final step, assert the channel's
bit in the shared enable register; afterwards the reload register holds
exactly `ticks` and the counter reads `0`. -/
theorem cevt_set_next_in_range_programs_then_enables (next idx : Nat)
    (s : HwState) (hn : next ≤ 0xffff) :
    (ingenic_tcu_cevt_set_next next idx s).1 = 0 ∧
    (ingenic_tcu_cevt_set_next next idx s).2.2 =
      [HwEvent.writeReg (REG_TDFRc idx) next,
       HwEvent.writeReg (REG_TCNTc idx) 0,
       HwEvent.terEnable idx] ∧
    (ingenic_tcu_cevt_set_next next idx s).2.1.regs (REG_TDFRc idx) = next ∧
    (ingenic_tcu_cevt_set_next next idx s).2.1.regs (REG_TCNTc idx) = 0 ∧
    (ingenic_tcu_cevt_set_next next idx s).2.1.ter.testBit idx = true := by
  have hgt : ¬ next > 0xffff := by omega
  have hmod : next % 2 ^ 32 = next := Nat.mod_eq_of_lt (by omega)
  have hne : REG_TDFRc idx ≠ REG_TCNTc idx := REG_TDFRc_ne_REG_TCNTc idx
  refine ⟨?_, ?_, ?_, ?_, ?_⟩ <;>
    simp [ingenic_tcu_cevt_set_next, hgt, writel, tcu_timer_enable, hmod,
          hne, testBit_setBit_self] <;>
    omega

/-- Witness for C3 at `ticks = 1000`, channel 0. -/
theorem cevt_set_next_in_range_witness :
    (ingenic_tcu_cevt_set_next 1000 0 ⟨fun _ => 5, 0⟩).1 = 0 ∧
    (ingenic_tcu_cevt_set_next 1000 0 ⟨fun _ => 5, 0⟩).2.2 =
      [HwEvent.writeReg (REG_TDFRc 0) 1000,
       HwEvent.writeReg (REG_TCNTc 0) 0,
       HwEvent.terEnable 0] ∧
    (ingenic_tcu_cevt_set_next 1000 0 ⟨fun _ => 5, 0⟩).2.1.regs (REG_TDFRc 0) =
      1000 ∧
    (ingenic_tcu_cevt_set_next 1000 0 ⟨fun _ => 5, 0⟩).2.1.regs (REG_TCNTc 0) =
      0 ∧
    (ingenic_tcu_cevt_set_next 1000 0 ⟨fun _ => 5, 0⟩).2.1.ter.testBit 0 =
      true :=
  cevt_set_next_in_range_programs_then_enables 1000 0 ⟨fun _ => 5, 0⟩
    (by decide)

/-- Claim C4: for every `ticks > 65535`, `arm(ticks)` fails with `-EINVAL`
and leaves the hardware state unchanged; no register write occurs (empty
event trace). -/
theorem cevt_set_next_out_of_range_rejected (next idx : Nat) (s : HwState)
    (h : next > 0xffff) :
    ingenic_tcu_cevt_set_next next idx s = (-EINVAL, s, []) := by
  simp [ingenic_tcu_cevt_set_next, h]

/-- Witness for C4 at `ticks = 65536`. -/
theorem cevt_set_next_out_of_range_witness :
    ingenic_tcu_cevt_set_next 65536 0 ⟨fun _ => 7, 3⟩ =
      (-EINVAL, ⟨fun _ => 7, 3⟩, []) :=
  cevt_set_next_out_of_range_rejected 65536 0 ⟨fun _ => 7, 3⟩ (by decide)

/-- Claim C5: `claim` on a channel whose bit is already set in the unit's
bitmap fails with `-EBUSY` and returns the whole driver state unchanged —
the bitmap is untouched apart from the test, and no clock handle or clock
enable state (of the existing owner or anyone else) is mutated. -/
theorem req_channel_busy_no_side_effects (env : ClkEnv) (idx : Nat)
    (s : DriverState) (h : s.requested.testBit idx = true) :
    ingenic_tcu_req_channel env idx s = (-EBUSY, s) := by
  simp [ingenic_tcu_req_channel, h]

/-- Witness for C5: channel 0 already claimed (bitmap `1`). -/
theorem req_channel_busy_witness :
    ingenic_tcu_req_channel okClkEnv 0 ⟨1, 1, 1⟩ = (-EBUSY, ⟨1, 1, 1⟩) :=
  req_channel_busy_no_side_effects okClkEnv 0 ⟨1, 1, 1⟩ (by decide)

/-- Claim C6: in `claim`, a failed clock lookup clears the freshly claimed
bit before returning the lookup error (and leaves the clock state alone); a
failed clock enable puts the clock handle and clears the claimed bit before
returning the enable error — after any failed claim the channel's bit reads
free. -/
theorem req_channel_failure_rolls_back (env : ClkEnv) (idx : Nat)
    (s : DriverState) (hfree : s.requested.testBit idx = false)
    (h64 : idx < 64) :
    (env.getErr idx ≠ 0 →
       (ingenic_tcu_req_channel env idx s).1 = env.getErr idx ∧
       (ingenic_tcu_req_channel env idx s).2.requested.testBit idx = false ∧
       (ingenic_tcu_req_channel env idx s).2.clkHeld = s.clkHeld ∧
       (ingenic_tcu_req_channel env idx s).2.clkEnabled = s.clkEnabled) ∧
    (env.getErr idx = 0 → env.enableErr idx ≠ 0 →
       (ingenic_tcu_req_channel env idx s).1 = env.enableErr idx ∧
       (ingenic_tcu_req_channel env idx s).2.requested.testBit idx = false ∧
       (ingenic_tcu_req_channel env idx s).2.clkHeld.testBit idx = false ∧
       (ingenic_tcu_req_channel env idx s).2.clkEnabled = s.clkEnabled) := by
  constructor
  · intro hget
    refine ⟨?_, ?_, ?_, ?_⟩ <;>
      simp [ingenic_tcu_req_channel, hfree, hget, testBit_clrBit_self, h64]
  · intro hget hen
    refine ⟨?_, ?_, ?_, ?_⟩ <;>
      simp [ingenic_tcu_req_channel, hfree, hget, hen, testBit_clrBit_self,
            h64]

/-- A clock subsystem whose `clk_prepare_enable` fails with `-5` on every
channel. -/
def enableFailClkEnv : ClkEnv := ⟨fun _ => 0, fun _ => -5⟩

/-- Witness for C6: channel 0 free, `clk_get` succeeds and
`clk_prepare_enable` fails with `-5`. -/
theorem req_channel_failure_rolls_back_witness :
    Nat.testBit 0 0 = false ∧ 0 < 64 ∧
    ((enableFailClkEnv.getErr 0 ≠ 0 →
       (ingenic_tcu_req_channel enableFailClkEnv 0 ⟨0, 0, 0⟩).1 =
         enableFailClkEnv.getErr 0 ∧
       (ingenic_tcu_req_channel enableFailClkEnv 0
           ⟨0, 0, 0⟩).2.requested.testBit 0 = false ∧
       (ingenic_tcu_req_channel enableFailClkEnv 0 ⟨0, 0, 0⟩).2.clkHeld =
         (0 : Nat) ∧
       (ingenic_tcu_req_channel enableFailClkEnv 0 ⟨0, 0, 0⟩).2.clkEnabled =
         (0 : Nat)) ∧
     (enableFailClkEnv.getErr 0 = 0 → enableFailClkEnv.enableErr 0 ≠ 0 →
       (ingenic_tcu_req_channel enableFailClkEnv 0 ⟨0, 0, 0⟩).1 =
         enableFailClkEnv.enableErr 0 ∧
       (ingenic_tcu_req_channel enableFailClkEnv 0
           ⟨0, 0, 0⟩).2.requested.testBit 0 = false ∧
       (ingenic_tcu_req_channel enableFailClkEnv 0
           ⟨0, 0, 0⟩).2.clkHeld.testBit 0 = false ∧
       (ingenic_tcu_req_channel enableFailClkEnv 0 ⟨0, 0, 0⟩).2.clkEnabled =
         (0 : Nat))) :=
  ⟨by decide, by decide,
   req_channel_failure_rolls_back enableFailClkEnv 0 ⟨0, 0, 0⟩ (by decide)
     (by decide)⟩

/-- Claim C7: the interrupt handler for channel `i` clears channel `i`'s
shared enable bit strictly before any invocation of the framework's
registered event-handler callback: the trace starts with the disable, and
every occurrence of the callback event is preceded by the disable event. -/
theorem cevt_cb_disarms_before_handler (hasHandler : Bool) (idx : Nat)
    (s : HwState) :
    (ingenic_tcu_cevt_cb hasHandler idx s).2.2 =
      HwEvent.terDisable idx ::
        (if hasHandler then [HwEvent.callHandler] else []) ∧
    (∀ tr1 tr2,
       (ingenic_tcu_cevt_cb hasHandler idx s).2.2 =
         tr1 ++ HwEvent.callHandler :: tr2 →
       HwEvent.terDisable idx ∈ tr1) := by
  constructor
  · cases hasHandler <;> simp [ingenic_tcu_cevt_cb]
  · intro tr1 tr2 h
    cases hasHandler <;> simp [ingenic_tcu_cevt_cb] at h
    · exfalso
      have hmem : HwEvent.callHandler ∈
          tr1 ++ HwEvent.callHandler :: tr2 := by simp
      rw [← h] at hmem
      simp at hmem
    · rcases tr1 with _ | ⟨a, tr1⟩
      · simp at h
      · simp at h
        simp [h.1]

/-- Witness for C7: with a registered handler on channel 1, the trace is
`[terDisable 1, callHandler]` and the disable precedes the callback. -/
theorem cevt_cb_disarms_before_handler_witness :
    (ingenic_tcu_cevt_cb true 1 ⟨fun _ => 0, 2⟩).2.2 =
      HwEvent.terDisable 1 ::
        (if true then [HwEvent.callHandler] else []) ∧
    HwEvent.terDisable 1 ∈ [HwEvent.terDisable 1] :=
  ⟨(cevt_cb_disarms_before_handler true 1 ⟨fun _ => 0, 2⟩).1,
   (cevt_cb_disarms_before_handler true 1 ⟨fun _ => 0, 2⟩).2
     [HwEvent.terDisable 1] [] (by decide)⟩

/-- Claim C10: with no registered event-handler callback (null pointer), the
interrupt handler still disarms the channel (enable bit cleared) and
returns `IRQ_HANDLED`, and the callback is never invoked. -/
theorem cevt_cb_null_handler_guarded (idx : Nat) (s : HwState)
    (h64 : idx < 64) :
    (ingenic_tcu_cevt_cb false idx s).1 = IRQ_HANDLED ∧
    (ingenic_tcu_cevt_cb false idx s).2.2 = [HwEvent.terDisable idx] ∧
    HwEvent.callHandler ∉ (ingenic_tcu_cevt_cb false idx s).2.2 ∧
    (ingenic_tcu_cevt_cb false idx s).2.1.ter.testBit idx = false := by
  refine ⟨?_, ?_, ?_, ?_⟩ <;>
    simp [ingenic_tcu_cevt_cb, tcu_timer_disable, testBit_clrBit_self, h64]

/-- Witness for C10: channel 2, enable register with bits 0–2 set. -/
theorem cevt_cb_null_handler_witness :
    (ingenic_tcu_cevt_cb false 2 ⟨fun _ => 0, 7⟩).1 = IRQ_HANDLED ∧
    (ingenic_tcu_cevt_cb false 2 ⟨fun _ => 0, 7⟩).2.2 =
      [HwEvent.terDisable 2] ∧
    HwEvent.callHandler ∉ (ingenic_tcu_cevt_cb false 2 ⟨fun _ => 0, 7⟩).2.2 ∧
    (ingenic_tcu_cevt_cb false 2 ⟨fun _ => 0, 7⟩).2.1.ter.testBit 2 = false :=
  cevt_cb_null_handler_guarded 2 ⟨fun _ => 0, 7⟩ (by decide)

theorem tcsrUpdateMask_eq : tcsrUpdateMask = 0xffc0 := by decide

theorem tcsrMask_testBit (i : Nat) (h : i < 16) :
    Nat.testBit 0xffff003f i = decide (i < 6) := by
  interval_cases i <;> decide

/-- Claim C9: `reset(channel)` fails (with `-EINVAL` or the regmap lookup
error) and performs no write when the per-channel `tcsr` handle cannot be
resolved; otherwise it performs exactly one read-modify-write at offset `0`
with update mask `0xffc0` and new value `0`, which clears every bit of the
16-bit field except the lowest 6 reserved bits. -/
theorem reset_channel_single_masked_rmw (env : ResetEnv) :
    tcsrUpdateMask = 0xffc0 ∧
    (env.tcsrNodeFound = false →
       ingenic_tcu_reset_channel env = (-EINVAL, none, [])) ∧
    (env.tcsrNodeFound = true → env.tcsrRegmapErr ≠ 0 →
       ingenic_tcu_reset_channel env = (env.tcsrRegmapErr, none, [])) ∧
    (env.tcsrNodeFound = true → env.tcsrRegmapErr = 0 →
       (ingenic_tcu_reset_channel env).2.2 = [(0, 0xffc0, 0)] ∧
       (ingenic_tcu_reset_channel env).2.1 =
         some (regmap_update_bits_val env.tcsrReg 0xffc0 0) ∧
       (∀ i, i < 16 →
          (regmap_update_bits_val env.tcsrReg 0xffc0 0).testBit i =
            (env.tcsrReg.testBit i && decide (i < 6)))) := by
  refine ⟨tcsrUpdateMask_eq, ?_, ?_, ?_⟩
  · intro h
    simp [ingenic_tcu_reset_channel, h]
  · intro h1 h2
    simp [ingenic_tcu_reset_channel, h1, h2]
  · intro h1 h2
    refine ⟨?_, ?_, ?_⟩
    · simp [ingenic_tcu_reset_channel, h1, h2, tcsrUpdateMask_eq]
    · simp [ingenic_tcu_reset_channel, h1, h2, tcsrUpdateMask_eq]
    · intro i hi
      simp [regmap_update_bits_val, tcsrMask_testBit i hi]

/-- Reset inputs for a channel whose `tcsr` phandle is absent. -/
def noNodeResetEnv : ResetEnv := ⟨false, 0, 0xffff, 0⟩

/-- Witness for C9: unresolvable handle gives `-EINVAL` with no write;
resolvable handle gives exactly one `(0, 0xffc0, 0)` update whose result on
register value `0xffff` keeps only the 6 reserved bits (`0x3f`). -/
theorem reset_channel_single_masked_rmw_witness :
    ingenic_tcu_reset_channel noNodeResetEnv = (-EINVAL, none, []) ∧
    (ingenic_tcu_reset_channel okResetEnv).2.2 = [(0, 0xffc0, 0)] ∧
    (ingenic_tcu_reset_channel okResetEnv).2.1 =
      some (regmap_update_bits_val 0xffff 0xffc0 0) ∧
    regmap_update_bits_val 0xffff 0xffc0 0 = 0x3f :=
  ⟨(reset_channel_single_masked_rmw noNodeResetEnv).2.1 (by decide),
   ((reset_channel_single_masked_rmw okResetEnv).2.2.2 (by decide)
      (by decide)).1,
   ((reset_channel_single_masked_rmw okResetEnv).2.2.2 (by decide)
      (by decide)).2.1,
   by decide⟩

/-- Claim C8: in per-channel setup, once the channel is claimed, reset, its
rate read and the event binding allocated, an interrupt-mapping failure
unwinds by freeing the binding then releasing the channel, and an
interrupt-registration failure unwinds by disposing the mapping, freeing the
binding, then releasing the channel — where releasing disables and puts the
clock and then clears the claimed bit, leaving the channel's bit free. -/
theorem setup_cevt_unwinds_in_reverse_order (env : SetupEnv) (idx : Nat)
    (s : DriverState)
    (hreq : (ingenic_tcu_req_channel env.clkEnv idx s).1 = 0)
    (hrst : (ingenic_tcu_reset_channel (env.resetEnv idx)).1 = 0)
    (hrate : env.rate idx ≠ 0) (halloc : env.kzallocOk = true)
    (h64 : idx < 64) :
    (env.virq idx = 0 →
       (ingenic_tcu_setup_cevt env idx s).1 = -EINVAL ∧
       (ingenic_tcu_setup_cevt env idx s).2.2 =
         [SetupEvent.kfreeJzcevt, SetupEvent.clkDisableUnprepare idx,
          SetupEvent.clkPut idx, SetupEvent.clearBit idx] ∧
       (ingenic_tcu_setup_cevt env idx s).2.1.requested.testBit idx =
         false) ∧
    (env.virq idx ≠ 0 → env.requestIrqErr idx ≠ 0 →
       (ingenic_tcu_setup_cevt env idx s).1 = env.requestIrqErr idx ∧
       (ingenic_tcu_setup_cevt env idx s).2.2 =
         [SetupEvent.irqDisposeMapping (env.virq idx),
          SetupEvent.kfreeJzcevt, SetupEvent.clkDisableUnprepare idx,
          SetupEvent.clkPut idx, SetupEvent.clearBit idx] ∧
       (ingenic_tcu_setup_cevt env idx s).2.1.requested.testBit idx =
         false) := by
  constructor
  · intro hvirq
    refine ⟨?_, ?_, ?_⟩ <;>
      simp [ingenic_tcu_setup_cevt, hreq, hrst, hrate, halloc, hvirq,
            ingenic_tcu_free_channel, testBit_clrBit_self, h64]
  · intro hvirq hirq
    refine ⟨?_, ?_, ?_⟩ <;>
      simp [ingenic_tcu_setup_cevt, hreq, hrst, hrate, halloc, hvirq, hirq,
            ingenic_tcu_free_channel, testBit_clrBit_self, h64]

/-- Setup inputs in which the interrupt line of channel 0 cannot be mapped
(`irq_of_parse_and_map` returns 0). -/
def virqFailSetupEnv : SetupEnv :=
  ⟨okClkEnv, fun _ => okResetEnv, fun _ => 12000000, true, fun _ => 0,
   fun _ => 0⟩

/-- Witness for C8: with channel 0 free and everything up to the binding
allocation succeeding, a mapping failure unwinds as
`kfree; clk_disable_unprepare; clk_put; clear_bit` and leaves bit 0 free. -/
theorem setup_cevt_unwinds_witness :
    (ingenic_tcu_setup_cevt virqFailSetupEnv 0 ⟨0, 0, 0⟩).1 = -EINVAL ∧
    (ingenic_tcu_setup_cevt virqFailSetupEnv 0 ⟨0, 0, 0⟩).2.2 =
      [SetupEvent.kfreeJzcevt, SetupEvent.clkDisableUnprepare 0,
       SetupEvent.clkPut 0, SetupEvent.clearBit 0] ∧
    (ingenic_tcu_setup_cevt virqFailSetupEnv 0
        ⟨0, 0, 0⟩).2.1.requested.testBit 0 = false :=
  (setup_cevt_unwinds_in_reverse_order virqFailSetupEnv 0 ⟨0, 0, 0⟩
      (by decide) (by decide) (by decide) (by decide) (by decide)).1
    (by decide)

/-- Unit-initialization inputs whose activation list names index 2 on a
unit with 2 discovered channels (index = discovered count: out of range). -/
def oobInitEnv : InitEnv := { okInitEnv with timerVal := fun _ => 2 }

/-- Claim C1 evaluated at its failing input: on a unit with 2 discovered
channels and activation list `[2]`, `ingenic_tcu_init` performs no range
validation at all — it reaches the out-of-bounds access
`&tcu->channels[2]` (undefined behavior), rather than reporting a
range/configuration error and performing no claim.  With the in-range list
`[0]` and the same environment the initializer returns 0. -/
theorem init_out_of_range_index_hits_oob :
    ingenic_tcu_init oobInitEnv = InitOutcome.oob 2 ∧
    ingenic_tcu_init okInitEnv = InitOutcome.ret 0 := by decide

/-- Unit-initialization inputs in which `kzalloc` of the unit fails. -/
def tcuAllocFailInitEnv : InitEnv := { okInitEnv with tcuAllocOk := false }

/-- Unit-initialization inputs in which reading an element of the
`"timers"` property fails. -/
def timersReadFailInitEnv : InitEnv :=
  { okInitEnv with readTimerErr := fun _ => -EINVAL }

/-- Unit-initialization inputs in which per-channel setup fails (zero clock
rate). -/
def setupFailInitEnv : InitEnv :=
  { okInitEnv with setup := { okSetupEnv with rate := fun _ => 0 } }

/-- Claim C2 evaluated at its failing inputs: a unit-creation failure, an
activation-list read failure, and a per-channel setup failure each send
`ingenic_tcu_init` into `BUG_ON` (the kernel's abort path, the source marks
these sites `TODO`) instead of returning an error code to the caller. -/
theorem init_aborts_via_bug_on :
    ingenic_tcu_init tcuAllocFailInitEnv = InitOutcome.bugOn ∧
    ingenic_tcu_init timersReadFailInitEnv = InitOutcome.bugOn ∧
    ingenic_tcu_init setupFailInitEnv = InitOutcome.bugOn := by decide
